import Mathlib

/-!
# Verification of the Item7 Food Truck core (`src/foodtruck.py`, `src/app.py`)

A shallow embedding of the booking/availability subsystem, the order
pricing and allergy-safety checks, the registration flow and the CSV
record-store loaders, together with proofs of the specified properties.

Modelling conventions (stated once here, referenced below):
* Python `str` is modelled as Lean `String`; all text handled by the
  claims is ASCII, so `str.lower` is modelled as an ASCII lowercase map.
* Python `float` money values are modelled as exact rationals `ℚ`;
  `round(x, 2)` is modelled as rounding to an integer number of cents.
* The CSV files are kept in lock-step with the in-memory lists by the
  code (every mutation appends/rewrites both); the `FoodTruck` state
  below therefore holds the parsed records and the various
  `load_*_from_csv` self-refreshes are the identity on that state.
  The standalone record-store loaders (claim about absent/unreadable
  stores) are modelled separately over an explicit `FileStore`.
* File permissions are assumed granted on the happy paths (the
  permission-failure branches are modelled only where a claim is about
  them, namely in the record-store loaders).
-/

namespace Item7

/-! ## Python string primitives -/

/-- The whitespace characters recognised by Python's `str.strip()`
(ASCII subset: space, tab, newline, carriage return, vertical tab,
form feed). -/
def isPyWs (c : Char) : Bool :=
  c = ' ' || c = '\t' || c = '\n' || c = '\r' || c = '\x0b' || c = '\x0c'

/-- ASCII lowercase of one character, as Python's `str.lower` acts on
the ASCII range (all data in the repository is ASCII). -/
def pyToLower (c : Char) : Char :=
  if 'A' ≤ c ∧ c ≤ 'Z' then Char.ofNat (c.toNat + 32) else c

/-- Python `s.lower()` (ASCII model). -/
def pyLower (s : String) : String := ⟨s.data.map pyToLower⟩

/-- Strip leading and trailing Python whitespace from a character list. -/
def stripChars (l : List Char) : List Char :=
  ((l.dropWhile isPyWs).reverse.dropWhile isPyWs).reverse

/-- Python `s.strip()`. -/
def pyStrip (s : String) : String := ⟨stripChars s.data⟩

/-- `app.sanitize_text`: convert `None` to `""` (no `None` in the model)
and strip surrounding whitespace. -/
def sanitize_text (s : String) : String := pyStrip s

/-- `foodtruck._sanitize_for_csv`: strip surrounding whitespace, then
replace interior newlines and carriage returns by spaces. -/
def sanitizeForCsv (s : String) : String :=
  ⟨(stripChars s.data).map (fun c => if c = '\n' ∨ c = '\r' then ' ' else c)⟩

/-- Python `s.split(sep)` for a one-character separator: splitting the
empty string yields `[""]`, and every separator occurrence produces a
field. -/
def splitOnChar (c : Char) (l : List Char) : List (List Char) :=
  match l with
  | [] => [[]]
  | h :: t =>
    match splitOnChar c t with
    | [] => [[]]
    | cur :: rest => if h = c then [] :: cur :: rest else (h :: cur) :: rest

/-- Does `l` start with `p`? (helper for substring containment). -/
def listStartsWith : List Char → List Char → Bool
  | _, [] => true
  | [], _ :: _ => false
  | h :: t, h' :: t' => h = h' && listStartsWith t t'

/-- Does `needle` occur as a contiguous run inside `hay`?  Models the
Python substring test `needle in hay`. -/
def listContainsSub (hay needle : List Char) : Bool :=
  match hay with
  | [] => needle.isEmpty
  | _ :: t => listStartsWith hay needle || listContainsSub t needle

/-- Python `needle in hay` on strings. -/
def strIn (needle hay : String) : Bool := listContainsSub hay.data needle.data

/-- Index of the last occurrence of `needle` in `hay`, if any. -/
def lastOccur (needle hay : List Char) : Option Nat :=
  ((List.range (hay.length + 1)).filter
    (fun i => listStartsWith (hay.drop i) needle)).getLast?

/-- Python `hay.rsplit(needle, 1)` when `needle` occurs in `hay`:
the part before the last occurrence and the part after it. -/
def rsplitOnce (needle hay : String) : String × String :=
  match lastOccur needle.data hay.data with
  | none => (hay, "")
  | some i => (⟨hay.data.take i⟩, ⟨hay.data.drop (i + needle.data.length)⟩)

/-- Numeric value of a digit string (most significant digit first). -/
def natFromDigits (l : List Char) : Nat :=
  l.foldl (fun a c => a * 10 + (c.toNat - 48)) 0

/-- Python `int(s)` on an already-stripped string: an optional sign
followed by digit groups separated by single underscores. Returns
`none` where Python raises `ValueError`. -/
def pyInt (s : String) : Option Int :=
  let (sign, rest) :=
    match s.data with
    | '+' :: t => ((1 : Int), t)
    | '-' :: t => ((-1 : Int), t)
    | t => ((1 : Int), t)
  let groups := splitOnChar '_' rest
  if groups.all (fun g => !g.isEmpty && g.all Char.isDigit) then
    some (sign * (natFromDigits (groups.flatten) : Int))
  else none

/-- Python `float(s)` restricted to the plain decimal forms used by the
repository's data (`d+`, `d+.d*`, `.d+`, with optional sign); returns
`none` where Python raises `ValueError`.  Exponents and the textual
special values are outside the data handled by the claims. -/
def pyFloat (s : String) : Option ℚ :=
  let (sign, rest) :=
    match (stripChars s.data) with
    | '+' :: t => ((1 : ℚ), t)
    | '-' :: t => ((-1 : ℚ), t)
    | t => ((1 : ℚ), t)
  match splitOnChar '.' rest with
  | [intPart] =>
    if !intPart.isEmpty && intPart.all Char.isDigit then
      some (sign * (natFromDigits intPart : ℚ))
    else none
  | [intPart, fracPart] =>
    if (intPart.all Char.isDigit && fracPart.all Char.isDigit)
        && (!intPart.isEmpty || !fracPart.isEmpty) then
      some (sign * ((natFromDigits intPart : ℚ)
        + (natFromDigits fracPart : ℚ) / (10 : ℚ) ^ fracPart.length))
    else none
  | _ => none

/-- Python `", ".join(l)`. -/
def joinComma (l : List String) : String := String.intercalate ", " l

/-- Floor of a rational as an integer (`Int.fdiv` is floor division
and a rational's denominator is positive). -/
def ratFloor (q : ℚ) : Int := q.num.fdiv q.den

/-- Python `round(x, 2)` with money modelled as exact rationals: round
to an integer number of cents, half upward.  (Python rounds a tie on
the underlying double to even; the repository's cent-valued amounts
never produce a tie, so the tie-breaking rule is immaterial here.) -/
def round2 (q : ℚ) : ℚ := (ratFloor (q * 100 + 1 / 2) : ℚ) / 100

/-- Rebuild a list from its `splitOnChar` fields (inverse of
`splitOnChar`, used to reason about the shape of parsed dates). -/
def joinSepChar (c : Char) : List (List Char) → List Char
  | [] => []
  | [g] => g
  | g :: gs => g ++ c :: joinSepChar c gs

/-! ## Dates: `datetime.strptime(s, "%Y-%m-%d")` and `strftime("%A")` -/

/-- Gregorian leap year, as `datetime.date` uses. -/
def isLeap (y : Nat) : Bool := (y % 4 = 0 && y % 100 ≠ 0) || y % 400 = 0

/-- Days in month `m` of year `y`. -/
def daysInMonth (y m : Nat) : Nat :=
  if m = 2 then (if isLeap y then 29 else 28)
  else if m = 4 ∨ m = 6 ∨ m = 9 ∨ m = 11 then 30
  else 31

/-- Days in the years strictly before year `y` (proleptic Gregorian). -/
def daysBeforeYear (y : Nat) : Nat :=
  365 * (y - 1) + (y - 1) / 4 - (y - 1) / 100 + (y - 1) / 400

/-- Days in the months of year `y` strictly before month `m`. -/
def daysBeforeMonth (y m : Nat) : Nat :=
  ((List.range (m - 1)).map (fun i => daysInMonth y (i + 1))).sum

/-- Proleptic Gregorian ordinal of a date (0001-01-01 has ordinal 1),
as `datetime.date.toordinal`. -/
def toOrdinal (y m d : Nat) : Nat := daysBeforeYear y + daysBeforeMonth y m + d

/-- Weekday index with Monday = 0, as `datetime.date.weekday()`:
0001-01-01 is a Monday. -/
def dayIndex (p : Nat × Nat × Nat) : Nat := (toOrdinal p.1 p.2.1 p.2.2 - 1) % 7

/-- The English day names produced by `strftime("%A")`, Monday first. -/
def DAY_NAMES : List String :=
  ["Monday", "Tuesday", "Wednesday", "Thursday", "Friday", "Saturday", "Sunday"]

/-- `booking_date.strftime("%A")`. -/
def dayName (p : Nat × Nat × Nat) : String := DAY_NAMES.getD (dayIndex p) ""

/-- A month/day field accepted by `strptime`'s `%m`/`%d` patterns:
one or two digits whose value lies in `1..hi` (`hi` = 12 or 31). -/
def validNumField (l : List Char) (hi : Nat) : Bool :=
  (l.length = 1 || l.length = 2) && l.all Char.isDigit
    && 1 ≤ natFromDigits l && natFromDigits l ≤ hi

/-- `datetime.strptime(s, "%Y-%m-%d").date()`: a four-digit year, a
month and a day (one or two digits each, per the `strptime` patterns),
validated against the calendar by the `date` constructor.  Returns
`none` exactly where Python raises `ValueError`. -/
def parseDate (s : String) : Option (Nat × Nat × Nat) :=
  match splitOnChar '-' s.data with
  | [ys, ms, ds] =>
    if ys.length = 4 && ys.all Char.isDigit && 1 ≤ natFromDigits ys
        && validNumField ms 12 && validNumField ds 31
        && natFromDigits ds ≤ daysInMonth (natFromDigits ys) (natFromDigits ms) then
      some (natFromDigits ys, natFromDigits ms, natFromDigits ds)
    else none
  | _ => none

/-! ## Data model -/

/-- A parsed menu item, as produced by `load_menu_from_csv`. -/
structure MenuItem where
  item_id : String
  name : String
  descr : String
  price : ℚ
  category : String
  vegan : Bool
  image : String
  allergens : List String
  available : Bool
  deriving Repr, DecidableEq

/-- A user record, as produced by `load_staff_from_csv`. -/
structure StaffMember where
  email : String
  password : String
  first : String
  last : String
  phone : String
  address : String
  dob : String
  sex : String
  role : String
  verified : String
  deriving Repr, DecidableEq

/-- A schedule entry, as produced by `load_schedules_from_csv`. -/
structure Schedule where
  manager : String
  date : String
  time : String
  staff_email : String
  staff_name : String
  work_time : String
  deriving Repr, DecidableEq

/-- `foodtruck.TIME_SLOTS`: the nine hourly slots 09:00–17:00. -/
def TIME_SLOTS : List String :=
  ["09:00", "10:00", "11:00", "12:00", "13:00", "14:00", "15:00", "16:00", "17:00"]

/-- `foodtruck.WORKING_DAYS`: Tuesday–Sunday, Monday excluded. -/
def WORKING_DAYS : List String :=
  ["Tuesday", "Wednesday", "Thursday", "Friday", "Saturday", "Sunday"]

/-- The state of a `FoodTruck` object: the parsed records (the CSV files
mirror these lists, see the module docstring). -/
structure FoodTruck where
  staff : List StaffMember
  schedules : List Schedule
  menu_items : List MenuItem
  deriving Repr

/-! ## Menu -/

/-- The default menu written by `initialize_default_menu`, already in
parsed form (every default item is available). -/
def defaultMenuItems : List MenuItem :=
  [⟨"1", "Original Chicken Sandwich Combo", "Crispy chicken sandwich, fries & drink.",
      799/100, "Food", false, "burger.svg", ["gluten", "wheat", "egg"], true⟩,
   ⟨"2", "Wings & Wedges Box", "Spicy wings with seasoned potato wedges.",
      949/100, "Food", false, "wings.svg", ["gluten", "wheat"], true⟩,
   ⟨"3", "Family Bucket", "12 pc chicken, large fries & slaw.",
      1999/100, "Food", false, "bucket.svg", ["gluten", "wheat"], true⟩,
   ⟨"4", "BBQ Chicken Wrap", "Grilled chicken, BBQ sauce, lettuce, and cheese in a warm tortilla.",
      849/100, "Food", false, "burger.svg", ["gluten", "dairy"], true⟩,
   ⟨"5", "Chicken Quesadilla", "Grilled chicken, cheese, and peppers in a crispy tortilla.",
      999/100, "Food", false, "veggie.svg", ["gluten", "dairy"], true⟩,
   ⟨"6", "Veggie Bowl", "Rice bowl with crispy veggies and sauce.",
      849/100, "Food", true, "veggie.svg", ["soy"], true⟩,
   ⟨"7", "Smoky Tofu Wrap", "Grilled tofu, crisp veggies, spicy mayo in a warm wrap.",
      925/100, "Food", true, "veggie.svg", ["soy", "gluten"], true⟩,
   ⟨"8", "Garden Salad", "Mixed greens, tomatoes, cucumbers, carrots, and your choice of dressing.",
      599/100, "Food", true, "veggie.svg", [], true⟩,
   ⟨"9", "Veggie Burger", "Plant-based patty with lettuce, tomato, onion, and special sauce.",
      799/100, "Food", true, "burger.svg", ["gluten", "soy"], true⟩,
   ⟨"10", "Coca-Cola", "Classic Coca-Cola soft drink.",
      249/100, "Drinks", true, "drink.svg", [], true⟩,
   ⟨"11", "Orange Juice", "Fresh squeezed orange juice.",
      349/100, "Drinks", true, "drink.svg", [], true⟩,
   ⟨"12", "Iced Tea", "Refreshing iced tea, sweetened or unsweetened.",
      299/100, "Drinks", true, "drink.svg", [], true⟩,
   ⟨"13", "Chocolate Milkshake", "Creamy chocolate milkshake topped with whipped cream.",
      499/100, "Drinks", false, "drink.svg", ["dairy"], true⟩,
   ⟨"14", "Chocolate Chip Cookies", "Freshly baked chocolate chip cookies (3pc).",
      399/100, "Dessert", false, "dessert.svg", ["gluten", "dairy", "egg"], true⟩,
   ⟨"15", "Apple Pie Slice", "Warm apple pie slice with vanilla ice cream.",
      599/100, "Dessert", false, "dessert.svg", ["gluten", "dairy"], true⟩]

/-- `get_menu_items`: reload the menu (identity on the modelled state)
and return the available items.  If none is available the code attempts
`initialize_default_menu`, which rewrites the file with the default menu
only when the store holds no rows at all; with rows present but all
unavailable the store is left alone and the result stays empty. -/
def get_menu_items (ft : FoodTruck) : List MenuItem :=
  let avail := ft.menu_items.filter (·.available)
  if avail.isEmpty then
    if ft.menu_items.isEmpty then defaultMenuItems.filter (·.available) else []
  else avail

/-- Insertion into a Python `dict` modelled as an ordered association
list with unique keys: an existing key keeps its position and gets the
new value, a new key is appended. -/
def dictInsert {α : Type} (m : List (String × α)) (k : String) (v : α) :
    List (String × α) :=
  if m.any (·.1 = k) then m.map (fun p => if p.1 = k then (k, v) else p)
  else m ++ [(k, v)]

/-- Python `dict[k]` / `k in dict` lookup on the association-list model. -/
def dictFind? {α : Type} (m : List (String × α)) (k : String) : Option α :=
  (m.find? (·.1 = k)).map (·.2)

/-- `get_menu_allergens`: the name → allergens mapping over the
available menu items (a `dict`, so a duplicated name keeps the last
item's allergens). -/
def get_menu_allergens (ft : FoodTruck) : List (String × List String) :=
  (get_menu_items ft).foldl (fun m item => dictInsert m item.name item.allergens) []

/-- `is_order_safe_for_allergy`: true when the lowercased, stripped
allergy declaration is empty; otherwise collect the allergens of every
mapping entry whose lowercased name occurs in the lowercased item text
(the Python `set` is modelled as a list, membership being all that is
used), fall back to an exact-name lookup when nothing was collected,
and report unsafe iff a collected allergen occurs in the declaration. -/
def is_order_safe_for_allergy (ft : FoodTruck) (items_text allergy_text : String) :
    Bool :=
  let allergy := pyStrip (pyLower allergy_text)
  if allergy = "" then true
  else
    let menu_allergens := get_menu_allergens ft
    let items_text_lower := pyLower items_text
    let combined := (menu_allergens.filter
        (fun p => strIn (pyLower p.1) items_text_lower)).foldl
      (fun acc p => acc ++ p.2) []
    let combined :=
      if combined.isEmpty then
        match dictFind? menu_allergens items_text with
        | some als => combined ++ als
        | none => combined
      else combined
    !(combined.any (fun al => strIn al allergy))

/-- One pass of the loop body of `calculate_order_price`: split off a
trailing `" x<quantity>"` (splitting at the last `" x"`, quantity
defaulting to 1 when missing or unparsable) and return the item name
with the quantity. -/
def parseOrderLine (item_str0 : String) : String × Int :=
  let item_str := pyStrip item_str0
  if strIn " x" item_str then
    let parts := rsplitOnce " x" item_str
    (pyStrip parts.1, (pyInt (pyStrip parts.2)).getD 1)
  else (item_str, 1)

/-- The name → price `dict` of `calculate_order_price`, built over the
available menu items (a duplicated name keeps the last item's price). -/
def menuPriceMap (ft : FoodTruck) : List (String × ℚ) :=
  (get_menu_items ft).foldl (fun m item => dictInsert m item.name item.price) []

/-- The comma-separated, stripped lines of an item summary
(`[item.strip() for item in items_text.split(",")]`). -/
def orderLines (items_text : String) : List String :=
  (splitOnChar ',' items_text.data).map (fun l => pyStrip ⟨l⟩)

/-- `calculate_order_price`: price the comma-separated item summary
against the name → price `dict` of the available menu; unrecognised
names contribute nothing; the total is rounded to cents. -/
def calculate_order_price (ft : FoodTruck) (items_text : String) : ℚ :=
  let menu := menuPriceMap ft
  let total := (orderLines items_text).foldl
    (fun total item_str =>
      let (item_name, quantity) := parseOrderLine item_str
      match dictFind? menu item_name with
      | some price => total + price * (quantity : ℚ)
      | none => total) 0
  round2 total

/-- What one summary line adds to the total: the menu price times the
quantity when the parsed name is on the available menu, zero otherwise. -/
def lineContribution (ft : FoodTruck) (item_str : String) : ℚ :=
  match dictFind? (menuPriceMap ft) (parseOrderLine item_str).1 with
  | some price => price * ((parseOrderLine item_str).2 : ℚ)
  | none => 0

/-! ## Users and booking -/

/-- `get_user_details`: `None`-like empty email gives no user, otherwise
the email is stripped and lowercased and compared against each stored
user's stripped, lowercased email; the first match wins.  (The internal
`load_staff_from_csv` refresh is the identity on the modelled state.) -/
def get_user_details (ft : FoodTruck) (email : String) : Option StaffMember :=
  if email = "" then none
  else
    let e := pyLower (pyStrip email)
    ft.staff.find? (fun u => pyLower (pyStrip u.email) = e)

/-- `user_exists`. -/
def user_exists (ft : FoodTruck) (email : String) : Bool :=
  (get_user_details ft email).isSome

/-- `is_time_slot_available`: false for a date that does not parse or
whose day name is not a working day; otherwise true iff no schedule
entry matches the (raw) staff email, date string and slot exactly. -/
def is_time_slot_available (ft : FoodTruck) (staff_email date_str time_slot : String) :
    Bool :=
  match parseDate date_str with
  | none => false
  | some p =>
    if WORKING_DAYS.contains (dayName p) then
      !(ft.schedules.any (fun s =>
        s.staff_email = staff_email && s.date = date_str && s.time = time_slot))
    else false

/-- `get_available_slots`: empty for a non-parsing date or a
non-working day, otherwise the time slots that are still available. -/
def get_available_slots (ft : FoodTruck) (staff_email date_str : String) :
    List String :=
  match parseDate date_str with
  | none => []
  | some p =>
    if WORKING_DAYS.contains (dayName p) then
      TIME_SLOTS.filter (fun slot => is_time_slot_available ft staff_email date_str slot)
    else []

/-- `book_schedule`: refuse when an entry with the same (raw) staff
email, date and time already exists, otherwise append the sanitized
entry (to the CSV and the in-memory list alike). -/
def book_schedule (ft : FoodTruck)
    (manager date time staff_email staff_name work_time : String) :
    FoodTruck × Bool :=
  if ft.schedules.any (fun s =>
      s.staff_email = staff_email && s.date = date && s.time = time) then
    (ft, false)
  else
    ({ ft with schedules := ft.schedules ++
        [⟨sanitizeForCsv manager, sanitizeForCsv date, sanitizeForCsv time,
          sanitizeForCsv staff_email, sanitizeForCsv staff_name,
          sanitizeForCsv work_time⟩] }, true)

/-- `book_helper`: validate the date/working day, the slot, the staff
member and the availability in that order, each failure short-circuiting
with its message, then commit through `book_schedule`. -/
def book_helper (ft : FoodTruck)
    (manager date_str time_slot staff_email work_time : String) :
    FoodTruck × Bool × String :=
  match parseDate date_str with
  | none => (ft, false, "Invalid date format. Use YYYY-MM-DD")
  | some p =>
    let day_name := dayName p
    if !(WORKING_DAYS.contains day_name) then
      (ft, false, day_name ++ " is not a working day. Working days: "
        ++ joinComma WORKING_DAYS)
    else if !(TIME_SLOTS.contains time_slot) then
      (ft, false, "Invalid time slot. Available slots: " ++ joinComma TIME_SLOTS)
    else
      match get_user_details ft staff_email with
      | none => (ft, false, "Staff member not found")
      | some staff =>
        let staff_name := staff.first ++ " " ++ staff.last
        if !(is_time_slot_available ft staff_email date_str time_slot) then
          (ft, false, "Time slot is already booked for this staff member")
        else
          let r := book_schedule ft manager date_str time_slot staff_email
            staff_name work_time
          if r.2 then (r.1, true, "Schedule booked successfully")
          else (r.1, false, "Failed to book schedule")

/-- A booking request, as fed to `book_helper` by the routes. -/
structure BookReq where
  manager : String
  date : String
  time : String
  staff_email : String
  work_time : String
  deriving Repr

/-- Run a sequence of booking requests through `book_helper`. -/
def runBookings (ft : FoodTruck) (reqs : List BookReq) : FoodTruck :=
  reqs.foldl
    (fun st r => (book_helper st r.manager r.date r.time r.staff_email r.work_time).1)
    ft

/-- The (staff email, date, time slot) key of a schedule entry. -/
def schedKey (s : Schedule) : String × String × String :=
  (s.staff_email, s.date, s.time)

/-- No two committed schedule entries share (staff email, date, slot). -/
def noDoubleBooking (ft : FoodTruck) : Prop :=
  (ft.schedules.map schedKey).Nodup

instance (ft : FoodTruck) : Decidable (noDoubleBooking ft) :=
  List.nodupDecidable _

/-! ## Registration (`app.signup`) -/

/-- The form fields consumed by the signup route. -/
structure SignupForm where
  email : String
  password : String
  account_type : String
  first : String
  last : String
  phone : String
  address : String
  dob : String
  sex : String
  deriving Repr

/-- The observable outcomes of a signup POST (flash message classes).
Both email-shape rejections flash the same message and are one case. -/
inductive SignupResult where
  | invalidEmail
  | shortPassword
  | missingName
  | duplicate
  | saveFailed
  | success
  deriving Repr, DecidableEq

/-- The first email check of `signup`:
`"@" in email and "." in email.split("@")[1]`. -/
def emailFormatOk (email : String) : Bool :=
  strIn "@" email &&
    (match splitOnChar '@' email.data with
     | _ :: p1 :: _ => p1.contains '.'
     | _ => false)

/-- `add_staff_to_csv`: normalise the email to stripped lowercase, keep
the password digest untouched, sanitize the remaining fields, and append
the record (to the CSV and the in-memory list alike). -/
def add_staff_to_csv (ft : FoodTruck)
    (email password first last phone address dob sex role verified : String) :
    FoodTruck :=
  let e := pyLower (pyStrip email)
  { ft with staff := ft.staff ++
      [⟨e, password, sanitizeForCsv first, sanitizeForCsv last,
        sanitizeForCsv phone, sanitizeForCsv address, sanitizeForCsv dob,
        sanitizeForCsv sex, sanitizeForCsv role, sanitizeForCsv verified⟩] }

/-- The normalised email a signup form registers under:
`sanitize_text(form["email"]).strip().lower()`. -/
def normEmail (f : SignupForm) : String := pyLower (pyStrip (sanitize_text f.email))

/-- The state after `signup`'s `add_staff_to_csv` call: the record is
appended with the normalised email, the hashed password and the
sanitized form fields, role derived from the account type, auto-verified. -/
def signupNewState (hash : String → String) (ft : FoodTruck) (f : SignupForm) :
    FoodTruck :=
  add_staff_to_csv ft (normEmail f) (hash f.password)
    (pyStrip (sanitize_text f.first)) (pyStrip (sanitize_text f.last))
    (pyStrip (sanitize_text f.phone)) (pyStrip (sanitize_text f.address))
    (pyStrip (sanitize_text f.dob)) (pyStrip (sanitize_text f.sex))
    (if f.account_type = "staff" then "staff" else "customer") "YES"

/-- The POST branch of `app.signup`, parameterised by the external
password-hashing utility: shape-check the email, the password length
and the names, reject an existing (case-insensitive) email as a
duplicate, otherwise add the user (`signupNewState`) and re-verify the
record landed.  (The second `not email or "@" not in email` check of
the code is kept even though the first check subsumes it.) -/
def signup (hash : String → String) (ft : FoodTruck) (f : SignupForm) :
    FoodTruck × SignupResult :=
  let email := normEmail f
  let password := f.password
  let first := pyStrip (sanitize_text f.first)
  let last := pyStrip (sanitize_text f.last)
  if !(emailFormatOk email) then (ft, .invalidEmail)
  else if email = "" || !(strIn "@" email) then (ft, .invalidEmail)
  else if password = "" || password.length < 6 then (ft, .shortPassword)
  else if first = "" || last = "" then (ft, .missingName)
  else if user_exists ft email then (ft, .duplicate)
  else
    let ft2 := signupNewState hash ft f
    if (get_user_details ft2 email).isSome then (ft2, .success)
    else (ft2, .saveFailed)

/-! ## Record store loaders -/

/-- The condition of a backing store as `check_file_permissions` and the
`open` calls observe it: absent, present but unreadable, or readable
with its parsed rows. -/
inductive FileStore (ρ : Type) where
  | absent
  | unreadable
  | readable (rows : List ρ)
  deriving Repr

/-- A raw row of `data/menu.csv` (all columns of the canonical header). -/
structure MenuRow where
  item_ID : String
  name : String
  descr : String
  price : String
  category : String
  vegan : String
  image : String
  allergens : String
  available : String
  deriving Repr

/-- Row-to-record parsing of `load_menu_from_csv`: strip the text
fields, split/strip/drop-empty the allergen list, parse the price with
fallback 0, and read the two boolean flags. -/
def parseMenuRow (r : MenuRow) : MenuItem :=
  { item_id := r.item_ID
    name := pyStrip r.name
    descr := pyStrip r.descr
    price := if r.price = "" then 0 else (pyFloat r.price).getD 0
    category := pyStrip r.category
    vegan := pyLower r.vegan = "true"
    image := pyStrip r.image
    allergens := ((splitOnChar ',' r.allergens.data).map
      (fun l => pyStrip ⟨l⟩)).filter (· ≠ "")
    available := pyLower r.available = "true" }

/-- `load_menu_from_csv` at the store level: an absent store triggers
`initialize_default_menu` (which writes the file) and leaves the
in-memory list empty; an unreadable store is logged and leaves it
empty; otherwise the rows with a non-empty `Name` are parsed. -/
def load_menu_from_csv : FileStore MenuRow → List MenuItem
  | .absent => []
  | .unreadable => []
  | .readable rows => (rows.filter (fun r => r.name ≠ "")).map parseMenuRow

/-- A raw row of `data/users.csv`; `Role`/`Verified` may be missing from
legacy stores (`row.get` with defaults). -/
structure UserRow where
  email : String
  password : String
  first_Name : String
  last_Name : String
  mobile_Number : String
  address : String
  dob : String
  sex : String
  role : Option String
  verified : Option String
  deriving Repr

/-- `load_staff_from_csv` at the store level: absent or unreadable
stores yield no records (logged), readable rows map straight into
records with defaulted `Role`/`Verified`. -/
def load_staff_from_csv : FileStore UserRow → List StaffMember
  | .absent => []
  | .unreadable => []
  | .readable rows => rows.map (fun r =>
      ⟨r.email, r.password, r.first_Name, r.last_Name, r.mobile_Number,
       r.address, r.dob, r.sex, r.role.getD "customer", r.verified.getD "NO"⟩)

/-- A raw row of `data/schedules.csv`. -/
structure ScheduleRow where
  manager : String
  date : String
  time : String
  staff_Email : String
  staff_Name : String
  work_Time : String
  deriving Repr

/-- `load_schedules_from_csv` at the store level: absent or unreadable
stores yield no records, readable rows map straight into records. -/
def load_schedules_from_csv : FileStore ScheduleRow → List Schedule
  | .absent => []
  | .unreadable => []
  | .readable rows => rows.map (fun r =>
      ⟨r.manager, r.date, r.time, r.staff_Email, r.staff_Name, r.work_Time⟩)

/-- A raw row of `data/orders.csv`; the columns introduced after the
first release may be missing from legacy stores (`row.get`). -/
structure OrderRow where
  order_ID : String
  customer_Name : String
  customer_Email : String
  item : String
  allergy_Info : String
  is_Safe : String
  timestamp : String
  customer_Phone : Option String
  order_Type : Option String
  delivery_Address : Option String
  address_Lat : Option String
  address_Lng : Option String
  delivery_Instructions : Option String
  pickup_Instructions : Option String
  status : Option String
  completed_By : Option String
  subtotal : Option String
  priceCol : Option String
  delivery_Fee : Option String
  tip_Amount : Option String
  total_Price : Option String
  payment_Method : Option String
  masked_Card : Option String
  card_Expiry : Option String
  deriving Repr

/-- An order record, as produced by `load_orders_from_csv`. -/
structure Order where
  order_id : String
  customer_name : String
  customer_email : String
  customer_phone : String
  order_type : String
  delivery_address : String
  address_lat : String
  address_lng : String
  delivery_instructions : String
  pickup_instructions : String
  item : String
  allergy_info : String
  is_safe : String
  timestamp : String
  status : String
  completed_by : String
  subtotal : String
  delivery_fee : String
  tip_amount : String
  price : String
  payment_method : String
  masked_card : String
  card_expiry : String
  deriving Repr

/-- Decimal rendering of a rational amount, standing in for Python's
`str(float)` in the rational money model (at least one digit after the
point, as Python prints floats); amounts that are not decimal fractions
render with as many digits as needed up to the cap, which the
repository's data never reaches. -/
def decimalStr (q : ℚ) : String :=
  let sign := if q < 0 then "-" else ""
  let a := |q|
  let k := ((List.range 28).find? (fun k => (a * 10 ^ (k + 1)).den = 1)).getD 27
  let scaled : ℤ := (a * 10 ^ (k + 1)).num / (a * 10 ^ (k + 1)).den
  let digits := toString scaled.toNat
  let digits := if digits.length ≤ k + 1 then
    String.mk (List.replicate (k + 2 - digits.length) '0') ++ digits else digits
  sign ++ ⟨digits.data.take (digits.length - (k + 1))⟩ ++ "."
    ++ ⟨digits.data.drop (digits.length - (k + 1))⟩

/-- Row-to-record parsing of `load_orders_from_csv`.  The default for
`Total_Price` is computed eagerly from `float(subtotal)`,
`float(delivery_fee)` and `float(tip_amount)`, so an unparsable amount
raises `ValueError` out of the loader (`none` here) even when
`Total_Price` is present. -/
def parseOrderRow (r : OrderRow) : Option Order :=
  let subtotal := r.subtotal.getD (r.priceCol.getD "0.00")
  let delivery_fee := r.delivery_Fee.getD "0.00"
  let tip_amount := r.tip_Amount.getD "0.00"
  match pyFloat subtotal, pyFloat delivery_fee, pyFloat tip_amount with
  | some s, some d, some t =>
    let total_price := r.total_Price.getD (decimalStr (s + d + t))
    some
      { order_id := r.order_ID
        customer_name := r.customer_Name
        customer_email := r.customer_Email
        customer_phone := r.customer_Phone.getD ""
        order_type := r.order_Type.getD "delivery"
        delivery_address := r.delivery_Address.getD ""
        address_lat := r.address_Lat.getD ""
        address_lng := r.address_Lng.getD ""
        delivery_instructions := r.delivery_Instructions.getD ""
        pickup_instructions := r.pickup_Instructions.getD ""
        item := r.item
        allergy_info := r.allergy_Info
        is_safe := r.is_Safe
        timestamp := r.timestamp
        status := r.status.getD "Pending"
        completed_by := r.completed_By.getD ""
        subtotal := subtotal
        delivery_fee := delivery_fee
        tip_amount := tip_amount
        price := total_price
        payment_method := r.payment_Method.getD "card"
        masked_card := r.masked_Card.getD ""
        card_expiry := r.card_Expiry.getD "" }
  | _, _, _ => none

/-- `load_orders_from_csv` at the store level: absent or unreadable
stores yield no records; a readable store parses row by row, `none`
modelling the uncaught `ValueError` on a malformed amount (only
`FileNotFoundError` is caught). -/
def load_orders_from_csv : FileStore OrderRow → Option (List Order)
  | .absent => some []
  | .unreadable => some []
  | .readable rows => rows.mapM parseOrderRow

/-! ## File mutations of the full-rewrite operations -/

/-- A mutation of the file system: an in-place (re)write of a path, or
a rename of one path onto another (`shutil.move`). -/
inductive FsOp where
  | write (path : String)
  | move (src dst : String)
  deriving Repr, DecidableEq

/-- Store paths. -/
def menuPath : String := "data/menu.csv"

def ordersPath : String := "data/orders.csv"

def usersPath : String := "data/users.csv"

/-- The file mutations of `save_menu_item` on its success path: one
in-place rewrite of the menu store (`open(path, "w")`). -/
def save_menu_item_fileOps : List FsOp := [.write menuPath]

/-- The file mutations of `delete_menu_item` on its success path: one
in-place rewrite of the menu store. -/
def delete_menu_item_fileOps : List FsOp := [.write menuPath]

/-- The file mutations of `update_order_status`: one in-place rewrite
of the orders store when the order was found, none otherwise. -/
def update_order_status_fileOps (updated : Bool) : List FsOp :=
  if updated then [.write ordersPath] else []

/-- The file mutations of `update_user_in_csv`: one in-place rewrite of
the users store when the user was found, none otherwise. -/
def update_user_in_csv_fileOps (user_found : Bool) : List FsOp :=
  if user_found then [.write usersPath] else []

/-- The file mutations of `_ensure_user_columns`: nothing when no
column is missing; a direct in-place header rewrite when the store has
no data rows; otherwise a write to `<path>.tmp` followed by a
`shutil.move` of the temporary file onto the store. -/
def ensure_user_columns_fileOps (missingCols rowsEmpty : Bool) : List FsOp :=
  if !missingCols then []
  else if rowsEmpty then [.write usersPath]
  else [.write (usersPath ++ ".tmp"), .move (usersPath ++ ".tmp") usersPath]

/-- A trace replaces `store` atomically when it never rewrites `store`
in place and instead moves a distinct temporary file onto it. -/
def atomicReplace (ops : List FsOp) (store : String) : Prop :=
  (∀ op ∈ ops, op ≠ FsOp.write store) ∧
    ∃ tmp, tmp ≠ store ∧ FsOp.move tmp store ∈ ops

/-! ## Spec-side definition for the allergen-matching claim -/

/-- The collected allergen set exactly as claim C3 words it: the union
of allergen tags over the name → allergens mapping entries whose name
is a case-SENSITIVE substring of the item summary text.  (The code
lowercases both sides; this definition follows the spec's words and is
compared against the code.) -/
def specCollectedCaseSensitive (ft : FoodTruck) (items_text : String) :
    List String :=
  ((get_menu_allergens ft).filter (fun p => strIn p.1 items_text)).foldl
    (fun acc p => acc ++ p.2) []

/-- The collected allergen set as the code computes it (before the
redundant exact-name fallback): case-insensitive substring matching. -/
def collectedAllergens (ft : FoodTruck) (items_text : String) : List String :=
  ((get_menu_allergens ft).filter
      (fun p => strIn (pyLower p.1) (pyLower items_text))).foldl
    (fun acc p => acc ++ p.2) []

/-! ## Concrete sample data for witnesses and counterexamples -/

/-- A registered staff member used in concrete scenarios. -/
def aliceStaff : StaffMember :=
  ⟨"a@x.com", "pw", "Alice", "Smith", "555", "1 Way", "2000-01-01", "F", "staff", "YES"⟩

/-- A truck with one staff member, no schedules and no menu. -/
def sampleTruck : FoodTruck := ⟨[aliceStaff], [], []⟩

/-- A truck whose menu has Veggie Burger at 7.99 and Coca-Cola at 2.49,
both available (the menu of the spec's pricing scenario). -/
def vbMenuTruck : FoodTruck :=
  ⟨[], [],
   [⟨"9", "Veggie Burger", "Plant-based patty.", 799/100, "Food", true,
      "burger.svg", ["gluten", "soy"], true⟩,
    ⟨"10", "Coca-Cola", "Soft drink.", 249/100, "Drinks", true,
      "drink.svg", [], true⟩]⟩

/-! ## Helper lemmas -/

theorem listStartsWith_refl (l : List Char) : listStartsWith l l = true := by
  induction l with
  | nil => rfl
  | cons h t ih => simp [listStartsWith, ih]

theorem strIn_refl (s : String) : strIn s s = true := by
  rcases s with ⟨_ | ⟨h, t⟩⟩
  · rfl
  · simp [strIn, listContainsSub, listStartsWith_refl]

theorem dropWhile_eq_self_of_all {p : Char → Bool} {l : List Char}
    (h : ∀ c ∈ l, p c = false) : l.dropWhile p = l := by
  cases l with
  | nil => rfl
  | cons a t => simp [List.dropWhile_cons, h a (List.mem_cons_self a t)]

theorem stripChars_eq_self {l : List Char} (h : ∀ c ∈ l, isPyWs c = false) :
    stripChars l = l := by
  unfold stripChars
  rw [dropWhile_eq_self_of_all h,
    dropWhile_eq_self_of_all (fun c hc => h c (List.mem_reverse.mp hc)),
    List.reverse_reverse]

theorem map_eq_self_of_all {f : Char → Char} {l : List Char}
    (h : ∀ c ∈ l, f c = c) : l.map f = l := by
  induction l with
  | nil => rfl
  | cons a t ih =>
    simp only [List.map_cons, h a (List.mem_cons_self a t)]
    rw [ih (fun c hc => h c (List.mem_cons_of_mem a hc))]

theorem splitOnChar_ne_nil (c : Char) (l : List Char) : splitOnChar c l ≠ [] := by
  cases l with
  | nil => simp [splitOnChar]
  | cons h t =>
    unfold splitOnChar
    cases splitOnChar c t with
    | nil => simp
    | cons cur rest => by_cases hc : h = c <;> simp [hc]

theorem joinSepChar_splitOnChar (c : Char) (l : List Char) :
    joinSepChar c (splitOnChar c l) = l := by
  induction l with
  | nil => rfl
  | cons h t ih =>
    unfold splitOnChar
    rcases hs : splitOnChar c t with _ | ⟨cur, rest⟩
    · exact absurd hs (splitOnChar_ne_nil c t)
    · rw [hs] at ih
      by_cases hc : h = c
      · subst hc
        simp only [if_pos rfl]
        cases rest <;> simpa [joinSepChar] using ih
      · simp only [if_neg hc]
        cases rest <;> simpa [joinSepChar] using congrArg (h :: ·) ih

theorem isPyWs_true_elim {c : Char} (h : isPyWs c = true) :
    c = ' ' ∨ c = '\t' ∨ c = '\n' ∨ c = '\r' ∨ c = '\x0b' ∨ c = '\x0c' := by
  simpa [isPyWs, Bool.or_eq_true, decide_eq_true_eq, or_assoc] using h

theorem isPyWs_eq_false_of_digit {c : Char} (h : c.isDigit = true) :
    isPyWs c = false := by
  rcases hb : isPyWs c with _ | _
  · rfl
  · rcases isPyWs_true_elim hb with h1 | h1 | h1 | h1 | h1 | h1 <;>
      (subst h1; exact absurd h (by decide))

theorem isPyWs_dash : isPyWs '-' = false := by decide

theorem newline_free_of_digit {c : Char} (h : c.isDigit = true) :
    (if c = '\n' ∨ c = '\r' then ' ' else c) = c := by
  rw [if_neg]
  rintro (h1 | h1) <;> (subst h1; exact absurd h (by decide))

theorem parseDate_chars {s : String} {p : Nat × Nat × Nat}
    (h : parseDate s = some p) : ∀ ch ∈ s.data, ch.isDigit = true ∨ ch = '-' := by
  have hjoin := joinSepChar_splitOnChar '-' s.data
  unfold parseDate at h
  rcases hs : splitOnChar '-' s.data with _ | ⟨ys, _ | ⟨ms, _ | ⟨ds, _ | ⟨e4, rest⟩⟩⟩⟩ <;>
    rw [hs] at h hjoin <;> try exact Option.noConfusion h
  rw [show (match [ys, ms, ds] with
    | [ys, ms, ds] =>
      if (decide (ys.length = 4) && ys.all Char.isDigit
          && decide (1 ≤ natFromDigits ys) && validNumField ms 12
          && validNumField ds 31
          && decide (natFromDigits ds ≤
              daysInMonth (natFromDigits ys) (natFromDigits ms))) = true then
        some (natFromDigits ys, natFromDigits ms, natFromDigits ds)
      else none
    | _ => none) =
    (if (decide (ys.length = 4) && ys.all Char.isDigit
          && decide (1 ≤ natFromDigits ys) && validNumField ms 12
          && validNumField ds 31
          && decide (natFromDigits ds ≤
              daysInMonth (natFromDigits ys) (natFromDigits ms))) = true then
        some (natFromDigits ys, natFromDigits ms, natFromDigits ds)
      else none) from rfl] at h
  split at h
  case isFalse => exact absurd h (by simp)
  rename_i hguard
  have hys : ∀ ch ∈ ys, ch.isDigit = true := by
    simp only [Bool.and_eq_true] at hguard
    exact List.all_eq_true.mp hguard.1.1.1.1.2
  have hmsF : validNumField ms 12 = true := by
    simp only [Bool.and_eq_true] at hguard
    exact hguard.1.1.2
  have hdsF : validNumField ds 31 = true := by
    simp only [Bool.and_eq_true] at hguard
    exact hguard.1.2
  simp only [validNumField, Bool.and_eq_true] at hmsF hdsF
  have hms : ∀ ch ∈ ms, ch.isDigit = true := List.all_eq_true.mp hmsF.1.1.2
  have hds : ∀ ch ∈ ds, ch.isDigit = true := List.all_eq_true.mp hdsF.1.1.2
  have hshape : s.data = ys ++ '-' :: (ms ++ '-' :: ds) := by
    simpa [joinSepChar] using hjoin.symm
  intro ch hch
  rw [hshape] at hch
  rcases List.mem_append.mp hch with hy | hch
  · exact Or.inl (by simpa using hys ch hy)
  rcases List.mem_cons.mp hch with hdash | hch
  · exact Or.inr hdash
  rcases List.mem_append.mp hch with hm | hch
  · exact Or.inl (by simpa using hms ch hm)
  rcases List.mem_cons.mp hch with hdash | hd
  · exact Or.inr hdash
  · exact Or.inl (by simpa using hds ch hd)

/-- A date string accepted by `strptime` consists of digits and dashes,
so CSV sanitisation leaves it unchanged. -/
theorem sanitizeForCsv_of_parseDate {s : String} {p : Nat × Nat × Nat}
    (h : parseDate s = some p) : sanitizeForCsv s = s := by
  have hc := parseDate_chars h
  unfold sanitizeForCsv
  rw [stripChars_eq_self, map_eq_self_of_all]
  · intro c hcm
    rcases hc c hcm with hd | hd
    · exact newline_free_of_digit hd
    · subst hd; rfl
  · intro c hcm
    rcases hc c hcm with hd | hd
    · exact isPyWs_eq_false_of_digit hd
    · subst hd; exact isPyWs_dash

/-- Every fixed time slot is already sanitized. -/
theorem sanitizeForCsv_timeSlot : ∀ ts ∈ TIME_SLOTS, sanitizeForCsv ts = ts := by
  decide

/-! ## Claim C7: empty allergy declaration is always safe -/

/-- C7: for every item summary text, `isSafe(text, "")` returns true —
an empty allergy declaration makes the safety check succeed
automatically, regardless of the items ordered or their allergen tags. -/
theorem c7_empty_allergy_always_safe :
    ∀ (ft : FoodTruck) (items_text : String),
      is_order_safe_for_allergy ft items_text "" = true :=
  fun _ _ => rfl

/-! ## Claim C5: Monday and malformed dates yield no slots -/

/-- C5: for every staff email and every date string, a date that does
not parse in the `YYYY-MM-DD` format yields an empty `availableSlots`
result rather than an error, and a date whose weekday is Monday yields
an empty result regardless of existing bookings. -/
theorem c5_monday_and_invalid_dates_empty :
    ∀ (ft : FoodTruck) (staff_email date_str : String),
      (parseDate date_str = none →
        get_available_slots ft staff_email date_str = []) ∧
      (∀ p, parseDate date_str = some p → dayName p = "Monday" →
        get_available_slots ft staff_email date_str = []) := by
  intro ft em ds
  constructor
  · intro h
    simp [get_available_slots, h]
  · intro p hp hm
    simp [get_available_slots, hp, hm, WORKING_DAYS]

/-- Witness for C5: 2024-06-10 is a Monday and yields no slots even
with no bookings at all, and a malformed date string yields no slots. -/
theorem c5_witness :
    get_available_slots ⟨[], [], []⟩ "a@x.com" "2024-06-10" = [] ∧
    get_available_slots ⟨[], [], []⟩ "a@x.com" "not-a-date" = [] :=
  ⟨(c5_monday_and_invalid_dates_empty ⟨[], [], []⟩ "a@x.com" "2024-06-10").2
      (2024, 6, 10) (by decide) (by decide),
   (c5_monday_and_invalid_dates_empty ⟨[], [], []⟩ "a@x.com" "not-a-date").1
      (by decide)⟩

/-! ## Claim C8: loaders degrade to empty on absent/unreadable stores -/

/-- C8: for every record kind (menu, users, schedules, orders), loading
from an absent or unreadable backing store produces an empty sequence
of records rather than failing the operation or raising to the caller
(`some []` for the orders loader, whose readable branch alone can
propagate an exception). -/
theorem c8_loaders_degrade_to_empty :
    (load_menu_from_csv .absent = [] ∧ load_menu_from_csv .unreadable = []) ∧
    (load_staff_from_csv .absent = [] ∧ load_staff_from_csv .unreadable = []) ∧
    (load_schedules_from_csv .absent = [] ∧
      load_schedules_from_csv .unreadable = []) ∧
    (load_orders_from_csv .absent = some [] ∧
      load_orders_from_csv .unreadable = some []) :=
  ⟨⟨rfl, rfl⟩, ⟨rfl, rfl⟩, ⟨rfl, rfl⟩, rfl, rfl⟩

/-! ## Claim C6: write strategy of the full-rewrite operations -/

/-- C6 counterexample: `save_menu_item` does not replace the menu store
atomically — its write-back is a single in-place rewrite of
`data/menu.csv`, with no temporary file and no move. -/
theorem c6_counterexample_save_menu_item_in_place :
    ¬ atomicReplace save_menu_item_fileOps menuPath := by
  intro h
  exact h.1 (FsOp.write menuPath) (by simp [save_menu_item_fileOps]) rfl

/-- C6 amended: only the user-store schema widening
(`_ensure_user_columns`, when columns are missing and data rows exist)
replaces its store atomically via a temporary file and a move; its
empty-store branch and the menu item save/delete, order status update
and user profile update all rewrite their stores in place. -/
theorem c6_amended_write_strategies :
    atomicReplace (ensure_user_columns_fileOps true false) usersPath ∧
    ensure_user_columns_fileOps true true = [FsOp.write usersPath] ∧
    save_menu_item_fileOps = [FsOp.write menuPath] ∧
    delete_menu_item_fileOps = [FsOp.write menuPath] ∧
    update_order_status_fileOps true = [FsOp.write ordersPath] ∧
    update_user_in_csv_fileOps true = [FsOp.write usersPath] := by
  refine ⟨⟨?_, ?_⟩, rfl, rfl, rfl, rfl, rfl⟩
  · intro op hop
    simp only [ensure_user_columns_fileOps, Bool.not_true, if_false,
      if_true, Bool.false_eq_true, List.mem_cons, List.mem_singleton] at hop
    rcases hop with h | h | h
    · subst h; simp [usersPath]
    · subst h; simp
    · exact absurd h (by simp)
  · exact ⟨usersPath ++ ".tmp", by simp [usersPath],
      by simp [ensure_user_columns_fileOps]⟩

/-! ## Claim C2: booking validation order -/

/-- C2: `book_helper` validates in a fixed short-circuit order where
the first failure wins — (1) a date that does not parse or whose
weekday is not a working day fails with the invalid-day error (its
format or working-day message) before anything else is checked; (2)
then a slot outside the nine-slot catalog fails with the invalid-slot
error; (3) then an unknown staff email fails with the staff-not-found
error; (4) then an unavailable slot fails with the conflict error; and
only when all four checks pass is the entry committed (appended to the
schedule store).  Every failure leaves the state unchanged. -/
theorem c2_validation_order :
    ∀ (ft : FoodTruck) (manager date_str time_slot staff_email work_time : String),
      (parseDate date_str = none →
        book_helper ft manager date_str time_slot staff_email work_time =
          (ft, false, "Invalid date format. Use YYYY-MM-DD")) ∧
      (∀ p, parseDate date_str = some p →
        WORKING_DAYS.contains (dayName p) = false →
        book_helper ft manager date_str time_slot staff_email work_time =
          (ft, false, dayName p ++ " is not a working day. Working days: "
            ++ joinComma WORKING_DAYS)) ∧
      (∀ p, parseDate date_str = some p →
        WORKING_DAYS.contains (dayName p) = true →
        TIME_SLOTS.contains time_slot = false →
        book_helper ft manager date_str time_slot staff_email work_time =
          (ft, false, "Invalid time slot. Available slots: "
            ++ joinComma TIME_SLOTS)) ∧
      (∀ p, parseDate date_str = some p →
        WORKING_DAYS.contains (dayName p) = true →
        TIME_SLOTS.contains time_slot = true →
        get_user_details ft staff_email = none →
        book_helper ft manager date_str time_slot staff_email work_time =
          (ft, false, "Staff member not found")) ∧
      (∀ p staff, parseDate date_str = some p →
        WORKING_DAYS.contains (dayName p) = true →
        TIME_SLOTS.contains time_slot = true →
        get_user_details ft staff_email = some staff →
        is_time_slot_available ft staff_email date_str time_slot = false →
        book_helper ft manager date_str time_slot staff_email work_time =
          (ft, false, "Time slot is already booked for this staff member")) ∧
      (∀ p staff, parseDate date_str = some p →
        WORKING_DAYS.contains (dayName p) = true →
        TIME_SLOTS.contains time_slot = true →
        get_user_details ft staff_email = some staff →
        is_time_slot_available ft staff_email date_str time_slot = true →
        book_helper ft manager date_str time_slot staff_email work_time =
          ({ ft with schedules := ft.schedules ++
              [⟨sanitizeForCsv manager, sanitizeForCsv date_str,
                sanitizeForCsv time_slot, sanitizeForCsv staff_email,
                sanitizeForCsv (staff.first ++ " " ++ staff.last),
                sanitizeForCsv work_time⟩] },
            true, "Schedule booked successfully")) := by
  intro ft manager ds ts em wt
  refine ⟨?_, ?_, ?_, ?_, ?_, ?_⟩
  · intro h
    simp [book_helper, h]
  · intro p hp hw
    simp at hw
    simp [book_helper, hp, hw]
  · intro p hp hw hts
    simp at hw hts
    simp [book_helper, hp, hw, hts]
  · intro p hp hw hts hu
    simp at hw hts
    simp [book_helper, hp, hw, hts, hu]
  · intro p staff hp hw hts hu ha
    simp at hw hts
    simp [book_helper, hp, hw, hts, hu, ha]
  · intro p staff hp hw hts hu ha
    have hany : (ft.schedules.any fun s =>
        s.staff_email = em && s.date = ds && s.time = ts) = false := by
      simp only [is_time_slot_available, hp, hw, if_true] at ha
      simpa using ha
    simp at hw hts
    simp [book_helper, hp, hw, hts, hu, ha, book_schedule, hany]

/-- Witness for C2: a valid Tuesday with the out-of-catalog slot 99:00
fails with the invalid-slot error and an unchanged state. -/
theorem c2_witness :
    book_helper ⟨[], [], []⟩ "Mgr" "2024-06-11" "99:00" "a@x.com" "w" =
      (⟨[], [], []⟩, false, "Invalid time slot. Available slots: "
        ++ joinComma TIME_SLOTS) :=
  ((c2_validation_order ⟨[], [], []⟩ "Mgr" "2024-06-11" "99:00" "a@x.com" "w").2.2.1)
    (2024, 6, 11) (by decide) (by decide) (by decide)

/-! ## Booking dichotomy and the no-double-booking invariant -/

/-- Every `book_helper` call either fails and leaves the state
unchanged, or succeeds with all four validations passed and appends
exactly one sanitized entry. -/
theorem book_helper_dichotomy (ft : FoodTruck) (m ds ts em wt : String) :
    ((book_helper ft m ds ts em wt).2.1 = false ∧
      (book_helper ft m ds ts em wt).1 = ft) ∨
    ((book_helper ft m ds ts em wt).2.1 = true ∧ ∃ p staff,
      parseDate ds = some p ∧ dayName p ∈ WORKING_DAYS ∧ ts ∈ TIME_SLOTS ∧
      get_user_details ft em = some staff ∧
      (∀ s ∈ ft.schedules, ¬(s.staff_email = em ∧ s.date = ds ∧ s.time = ts)) ∧
      (book_helper ft m ds ts em wt).1 =
        { ft with schedules := ft.schedules ++
          [⟨sanitizeForCsv m, sanitizeForCsv ds, sanitizeForCsv ts,
            sanitizeForCsv em, sanitizeForCsv (staff.first ++ " " ++ staff.last),
            sanitizeForCsv wt⟩] }) := by
  rcases hp : parseDate ds with _ | p
  · left; constructor <;> simp [book_helper, hp]
  by_cases hw : dayName p ∈ WORKING_DAYS
  case neg => left; constructor <;> simp [book_helper, hp, hw]
  by_cases hts : ts ∈ TIME_SLOTS
  case neg => left; constructor <;> simp [book_helper, hp, hw, hts]
  rcases hu : get_user_details ft em with _ | staff
  · left; constructor <;> simp [book_helper, hp, hw, hts, hu]
  by_cases hany : ∀ s ∈ ft.schedules, ¬(s.staff_email = em ∧ s.date = ds ∧ s.time = ts)
  · right
    have hanyb : (ft.schedules.any fun s =>
        s.staff_email = em && s.date = ds && s.time = ts) = false := by
      simp only [List.any_eq_false]
      intro s hs
      simpa using hany s hs
    have ha : is_time_slot_available ft em ds ts = true := by
      simp [is_time_slot_available, hp, hw, hanyb]
    refine ⟨?_, p, staff, rfl, hw, hts, rfl, hany, ?_⟩ <;>
      simp [book_helper, hp, hw, hts, hu, ha, book_schedule, hanyb]
  · left
    have hanyb : (ft.schedules.any fun s =>
        s.staff_email = em && s.date = ds && s.time = ts) = true := by
      rw [List.any_eq_true]
      push_neg at hany
      obtain ⟨s, hs, h1⟩ := hany
      exact ⟨s, hs, by simpa [and_assoc] using h1⟩
    have ha : is_time_slot_available ft em ds ts = false := by
      simp [is_time_slot_available, hp, hw, hanyb]
    constructor <;> simp [book_helper, hp, hw, hts, hu, ha]

/-- A `book_helper` call with a sanitized staff email preserves the
no-double-booking invariant: the committed key is exactly the raw
(email, date, slot) triple, which the availability check has just
ruled out. -/
theorem book_helper_preserves_noDoubleBooking {ft : FoodTruck}
    {m ds ts em wt : String} (hem : sanitizeForCsv em = em)
    (hinv : noDoubleBooking ft) :
    noDoubleBooking (book_helper ft m ds ts em wt).1 := by
  rcases book_helper_dichotomy ft m ds ts em wt with ⟨-, hstate⟩ |
    ⟨-, p, staff, hp, hw, hts, hu, hnone, hstate⟩
  · rw [hstate]; exact hinv
  · rw [hstate]
    unfold noDoubleBooking at *
    simp only [List.map_append, List.map_cons, List.map_nil]
    rw [List.nodup_append]
    refine ⟨hinv, List.nodup_singleton _, ?_⟩
    intro x hx hx1
    simp only [List.mem_singleton] at hx1
    obtain ⟨s, hs, hsk⟩ := List.mem_map.mp hx
    subst hx1
    rw [sanitizeForCsv_of_parseDate hp, sanitizeForCsv_timeSlot ts hts, hem]
      at hsk
    apply hnone s hs
    have h1 : s.staff_email = em := congrArg Prod.fst hsk
    have h2 : s.date = ds := congrArg (Prod.fst ∘ Prod.snd) hsk
    have h3 : s.time = ts := congrArg (Prod.snd ∘ Prod.snd) hsk
    exact ⟨h1, h2, h3⟩

/-- C1 counterexample: two bookings through `book_helper` from an empty
schedule — the second with surrounding whitespace on the staff email —
commit two schedule entries with the same (staff email, date, slot)
triple: the availability check compares the raw email string while the
committed entry stores the sanitized one. -/
theorem c1_counterexample_whitespace_email :
    ¬ noDoubleBooking (runBookings sampleTruck
      [⟨"Mgr", "2024-06-11", "09:00", "a@x.com", "w"⟩,
       ⟨"Mgr", "2024-06-11", "09:00", " a@x.com ", "w"⟩]) := by
  decide

/-- C1 amended: provided every staff email handed to `book_helper`
equals its sanitized form (no surrounding whitespace or newlines —
which every in-catalog slot and every parseable date automatically do),
(1) any sequence of bookings preserves the invariant that no two
committed schedule entries share the (staff email, date, slot) triple;
(2) after a successful booking, `availableSlots` for that staff/date
excludes the booked slot; and (3) repeating the identical booking call
fails with the conflict error and does not commit a second entry. -/
theorem c1_amended_no_double_booking :
    (∀ (ft : FoodTruck) (reqs : List BookReq),
      noDoubleBooking ft →
      (∀ r ∈ reqs, sanitizeForCsv r.staff_email = r.staff_email) →
      noDoubleBooking (runBookings ft reqs)) ∧
    (∀ (ft : FoodTruck) (m ds ts em wt : String),
      sanitizeForCsv em = em →
      (book_helper ft m ds ts em wt).2.1 = true →
      ts ∉ get_available_slots (book_helper ft m ds ts em wt).1 em ds) ∧
    (∀ (ft : FoodTruck) (m ds ts em wt : String),
      sanitizeForCsv em = em →
      (book_helper ft m ds ts em wt).2.1 = true →
      book_helper (book_helper ft m ds ts em wt).1 m ds ts em wt =
        ((book_helper ft m ds ts em wt).1, false,
          "Time slot is already booked for this staff member")) := by
  refine ⟨?_, ?_, ?_⟩
  · intro ft reqs
    induction reqs generalizing ft with
    | nil => intro hinv _; exact hinv
    | cons r rs ih =>
      intro hinv hsan
      simp only [runBookings, List.foldl_cons] at *
      exact ih _
        (book_helper_preserves_noDoubleBooking
          (hsan r (List.mem_cons_self r rs)) hinv)
        (fun r' hr' => hsan r' (List.mem_cons_of_mem r hr'))
  · intro ft m ds ts em wt hem hsucc
    rcases book_helper_dichotomy ft m ds ts em wt with ⟨hfail, -⟩ |
      ⟨-, p, staff, hp, hw, hts, hu, hnone, hstate⟩
    · rw [hsucc] at hfail; exact absurd hfail (by simp)
    rw [hstate, sanitizeForCsv_of_parseDate hp, sanitizeForCsv_timeSlot ts hts,
      hem]
    have hwb : WORKING_DAYS.contains (dayName p) = true := by simpa using hw
    intro hmem
    simp only [get_available_slots, hp, hwb, eq_self_iff_true, if_true,
      List.mem_filter] at hmem
    obtain ⟨-, havail⟩ := hmem
    simp [is_time_slot_available, hp, hwb] at havail
  · intro ft m ds ts em wt hem hsucc
    rcases book_helper_dichotomy ft m ds ts em wt with ⟨hfail, -⟩ |
      ⟨-, p, staff, hp, hw, hts, hu, hnone, hstate⟩
    · rw [hsucc] at hfail; exact absurd hfail (by simp)
    rw [hstate]
    have hu' : get_user_details
        { ft with schedules := ft.schedules ++
          [⟨sanitizeForCsv m, sanitizeForCsv ds, sanitizeForCsv ts,
            sanitizeForCsv em, sanitizeForCsv (staff.first ++ " " ++ staff.last),
            sanitizeForCsv wt⟩] } em = some staff := hu
    have ha' : is_time_slot_available
        { ft with schedules := ft.schedules ++
          [⟨sanitizeForCsv m, sanitizeForCsv ds, sanitizeForCsv ts,
            sanitizeForCsv em, sanitizeForCsv (staff.first ++ " " ++ staff.last),
            sanitizeForCsv wt⟩] } em ds ts = false := by
      simp only [is_time_slot_available, hp]
      rw [if_pos (by simpa using hw)]
      rw [sanitizeForCsv_of_parseDate hp, sanitizeForCsv_timeSlot ts hts, hem]
      simp
    simp [book_helper, hp, hw, hts, hu', ha']

/-- Witness for C1 amended: with the clean email "a@x.com", two bookings
on different slots keep the invariant; after booking 09:00 that slot is
excluded from the available slots and the identical repeat call fails
with the conflict error. -/
theorem c1_amended_witness :
    noDoubleBooking (runBookings sampleTruck
      [⟨"Mgr", "2024-06-11", "09:00", "a@x.com", "w"⟩,
       ⟨"Mgr", "2024-06-11", "10:00", "a@x.com", "w"⟩]) ∧
    "09:00" ∉ get_available_slots
      (book_helper sampleTruck "Mgr" "2024-06-11" "09:00" "a@x.com" "w").1
      "a@x.com" "2024-06-11" ∧
    book_helper (book_helper sampleTruck "Mgr" "2024-06-11" "09:00" "a@x.com" "w").1
      "Mgr" "2024-06-11" "09:00" "a@x.com" "w" =
      ((book_helper sampleTruck "Mgr" "2024-06-11" "09:00" "a@x.com" "w").1,
        false, "Time slot is already booked for this staff member") :=
  ⟨c1_amended_no_double_booking.1 sampleTruck
      [⟨"Mgr", "2024-06-11", "09:00", "a@x.com", "w"⟩,
       ⟨"Mgr", "2024-06-11", "10:00", "a@x.com", "w"⟩]
      (by decide) (by decide),
   c1_amended_no_double_booking.2.1 sampleTruck
      "Mgr" "2024-06-11" "09:00" "a@x.com" "w" (by decide) (by decide),
   c1_amended_no_double_booking.2.2 sampleTruck
      "Mgr" "2024-06-11" "09:00" "a@x.com" "w" (by decide) (by decide)⟩

/-! ## Claim C3: allergen matching -/

theorem foldl_append_snd {α β : Type} (l : List (α × List β)) (init : List β) :
    l.foldl (fun acc p => acc ++ p.2) init = init ++ (l.map Prod.snd).flatten := by
  induction l generalizing init with
  | nil => simp
  | cons p t ih => simp [ih, List.append_assoc]

/-- The collected set as `is_order_safe_for_allergy` computes it,
fallback included, for a non-empty declaration. -/
theorem is_order_safe_eq (ft : FoodTruck) (items_text allergy_text : String)
    (hne : pyStrip (pyLower allergy_text) ≠ "") :
    is_order_safe_for_allergy ft items_text allergy_text =
      !((if (collectedAllergens ft items_text).isEmpty then
          match dictFind? (get_menu_allergens ft) items_text with
          | some als => collectedAllergens ft items_text ++ als
          | none => collectedAllergens ft items_text
        else collectedAllergens ft items_text).any
        (fun al => strIn al (pyStrip (pyLower allergy_text)))) := by
  simp only [is_order_safe_for_allergy, collectedAllergens]
  rw [if_neg hne]

/-- When nothing was collected by substring matching but the item text
is an exact key of the mapping, that key's allergens are themselves
empty (the exact key always matches itself as a substring), so the
fallback of `is_order_safe_for_allergy` never changes the verdict. -/
theorem fallback_allergens_nil {ft : FoodTruck} {items_text : String} {als : List String}
    (hc : collectedAllergens ft items_text = [])
    (hf : dictFind? (get_menu_allergens ft) items_text = some als) : als = [] := by
  unfold dictFind? at hf
  rcases hfind : (get_menu_allergens ft).find? (·.1 = items_text) with _ | pr
  · rw [hfind] at hf; exact absurd hf (by simp)
  rw [hfind] at hf
  have hpr1 : pr.1 = items_text := by
    have := List.find?_some hfind
    simpa using this
  have hprmem : pr ∈ (get_menu_allergens ft).filter
      (fun p => strIn (pyLower p.1) (pyLower items_text)) := by
    rw [List.mem_filter]
    exact ⟨List.mem_of_find?_eq_some hfind, by rw [hpr1]; exact strIn_refl _⟩
  unfold collectedAllergens at hc
  rw [foldl_append_snd, List.nil_append] at hc
  have hnil := List.flatten_eq_nil_iff.mp hc pr.2 (List.mem_map_of_mem Prod.snd hprmem)
  simp only [Option.map_some', Option.some.injEq] at hf
  rw [← hf]
  exact hnil

/-- C3 counterexample: against a menu whose only matching item is
"Veggie Burger" with tag "gluten", marked available, the order text
"veggie burger" with declaration "gluten" is reported unsafe even
though no menu item name is a case-SENSITIVE substring of the text (the
claim's rule would report it safe): the code lowercases both sides. -/
theorem c3_counterexample_case_sensitivity :
    is_order_safe_for_allergy vbMenuTruck "veggie burger" "gluten" = false ∧
    specCollectedCaseSensitive vbMenuTruck "veggie burger" = [] := by
  constructor <;> decide

/-- C3 amended: for every item summary text and every allergy
declaration that is non-empty once lowercased and stripped, `isSafe`
collects the union of allergen tags of every menu-allergens mapping
entry (over the available menu) whose name is a case-INSENSITIVE
substring match within the item summary text, and returns false iff at
least one collected tag appears as a substring of the lowercased,
stripped allergy declaration. -/
theorem c3_amended_case_insensitive_matching :
    ∀ (ft : FoodTruck) (items_text allergy_text : String),
      pyStrip (pyLower allergy_text) ≠ "" →
      (is_order_safe_for_allergy ft items_text allergy_text = false ↔
        ∃ al ∈ collectedAllergens ft items_text,
          strIn al (pyStrip (pyLower allergy_text)) = true) := by
  intro ft text allergy hne
  rw [is_order_safe_eq ft text allergy hne]
  by_cases hc : (collectedAllergens ft text).isEmpty
  · rw [if_pos hc]
    rw [List.isEmpty_iff] at hc
    rcases hf : dictFind? (get_menu_allergens ft) text with _ | als
    · simp [hc]
    · rw [fallback_allergens_nil hc hf]
      simp [hc]
  · rw [if_neg hc]
    simp

/-- Witness for C3 amended: "Veggie Burger x2" with declaration
"Gluten allergy" is reported unsafe — the lowercased menu name
"veggie burger" occurs in the lowercased text and its tag "gluten"
occurs in the lowercased declaration. -/
theorem c3_amended_witness :
    is_order_safe_for_allergy vbMenuTruck "Veggie Burger x2" "Gluten allergy" = false :=
  (c3_amended_case_insensitive_matching vbMenuTruck "Veggie Burger x2"
      "Gluten allergy" (by decide)).mpr
    ⟨"gluten", by decide, by decide⟩

/-! ## Claims C4 and C10: pricing -/

/-- `ratFloor` is the mathematical floor. -/
theorem ratFloor_eq_floor (q : ℚ) : ratFloor q = ⌊q⌋ := by
  rw [ratFloor, Rat.floor_def]
  exact Int.fdiv_eq_ediv _ (Int.ofNat_nonneg q.den)

/-- The pricing fold adds exactly one `lineContribution` per summary line. -/
theorem price_foldl_eq_sum (ft : FoodTruck) (lines : List String) (init : ℚ) :
    lines.foldl
      (fun total item_str =>
        let (item_name, quantity) := parseOrderLine item_str
        match dictFind? (menuPriceMap ft) item_name with
        | some price => total + price * (quantity : ℚ)
        | none => total) init
    = init + (lines.map (lineContribution ft)).sum := by
  induction lines generalizing init with
  | nil => simp
  | cons l t ih =>
    simp only [List.foldl_cons, List.map_cons, List.sum_cons]
    rw [ih]
    have hstep : (match dictFind? (menuPriceMap ft) (parseOrderLine l).1 with
        | some price => init + price * (((parseOrderLine l).2 : Int) : ℚ)
        | none => init) = init + lineContribution ft l := by
      unfold lineContribution
      rcases hfind : dictFind? (menuPriceMap ft) (parseOrderLine l).1 with _ | price <;>
        simp [hfind]
    rw [hstep]
    ring

/-- C4: `calculate_order_price` parses the summary as a comma-separated
list of stripped lines; each line contributes its menu price times its
quantity when its name is recognised and zero otherwise, and the
rounded sum of the contributions is the result; a line without a
`" x"` quantity marker parses with quantity 1; and the spec's scenario
"Veggie Burger x2, Coca-Cola x1" against a menu with Veggie Burger at
7.99 and Coca-Cola at 2.49 yields 18.47. -/
theorem c4_price_parsing_and_scenario :
    (∀ (ft : FoodTruck) (items_text : String),
      calculate_order_price ft items_text =
        round2 (((orderLines items_text).map (lineContribution ft)).sum)) ∧
    (∀ l : String, strIn " x" (pyStrip l) = false →
      parseOrderLine l = (pyStrip l, 1)) ∧
    (∀ (ft : FoodTruck) (l : String),
      dictFind? (menuPriceMap ft) (parseOrderLine l).1 = none →
      lineContribution ft l = 0) ∧
    calculate_order_price vbMenuTruck "Veggie Burger x2, Coca-Cola x1"
      = 1847 / 100 := by
  have hmain : ∀ (ft : FoodTruck) (items_text : String),
      calculate_order_price ft items_text =
        round2 (((orderLines items_text).map (lineContribution ft)).sum) := by
    intro ft text
    have h := price_foldl_eq_sum ft (orderLines text) 0
    rw [zero_add] at h
    calc calculate_order_price ft text
        = round2 ((orderLines text).foldl
            (fun total item_str =>
              let (item_name, quantity) := parseOrderLine item_str
              match dictFind? (menuPriceMap ft) item_name with
              | some price => total + price * (quantity : ℚ)
              | none => total) 0) := rfl
      _ = round2 (((orderLines text).map (lineContribution ft)).sum) := by
            rw [h]
  refine ⟨hmain, ?_, ?_, ?_⟩
  · intro l h
    simp only [parseOrderLine]
    rw [h]
    simp
  · intro ft l h
    unfold lineContribution
    rw [h]
  · rw [hmain]
    have hlist : (orderLines "Veggie Burger x2, Coca-Cola x1").map
        (lineContribution vbMenuTruck) =
        [799 / 100 * ((2 : ℤ) : ℚ), 249 / 100 * ((1 : ℤ) : ℚ)] := rfl
    rw [hlist]
    simp only [round2, ratFloor_eq_floor, List.sum_cons, List.sum_nil]
    norm_num

/-- Witness for C4: the scenario conjunct evaluated through the general
sum characterisation at the concrete menu and summary. -/
theorem c4_witness :
    parseOrderLine "Garden Salad" = (pyStrip "Garden Salad", 1) ∧
    calculate_order_price vbMenuTruck "Veggie Burger x2, Coca-Cola x1"
      = 1847 / 100 :=
  ⟨c4_price_parsing_and_scenario.2.1 "Garden Salad" (by decide),
   c4_price_parsing_and_scenario.2.2.2⟩

/-- Membership in `dictInsert` comes from the base map or the new key. -/
theorem mem_dictInsert {α : Type} {m : List (String × α)} {k : String} {v : α}
    {e : String × α} (he : e ∈ dictInsert m k v) : e ∈ m ∨ e.1 = k := by
  unfold dictInsert at he
  split at he
  · obtain ⟨a, ha, hae⟩ := List.mem_map.mp he
    by_cases hak : a.1 = k
    · right; rw [← hae]; simp [hak]
    · left; rw [← hae]; simp [hak]; exact ha
  · rcases List.mem_append.mp he with h | h
    · exact Or.inl h
    · right
      simp only [List.mem_singleton] at h
      rw [h]

/-- Every key of a `dict` built by repeated insertion is the key of one
of the inserted elements (or of the base map). -/
theorem mem_foldl_dictInsert {α β : Type} (key : β → String) (val : β → α) :
    ∀ (items : List β) (m0 : List (String × α)) (e : String × α),
      e ∈ items.foldl (fun m i => dictInsert m (key i) (val i)) m0 →
      e ∈ m0 ∨ e.1 ∈ items.map key := by
  intro items
  induction items with
  | nil => intro m0 e he; exact Or.inl he
  | cons i t ih =>
    intro m0 e he
    simp only [List.foldl_cons] at he
    rcases ih _ e he with h | h
    · rcases mem_dictInsert h with h' | h'
      · exact Or.inl h'
      · right; simp [h']
    · right; simp [h]

/-- C10: the pricing lookup sees only available menu items — an item
present in the store but unavailable (with no available item of the
same name) is absent from the name → price mapping, and any summary
line naming it contributes zero, exactly like an unrecognised name. -/
theorem c10_unavailable_items_price_zero :
    ∀ (ft : FoodTruck) (item : MenuItem), item ∈ ft.menu_items →
      item.available = false →
      (∀ j ∈ ft.menu_items, j.name = item.name → j.available = false) →
      dictFind? (menuPriceMap ft) item.name = none ∧
      (∀ l : String, (parseOrderLine l).1 = item.name →
        lineContribution ft l = 0) := by
  intro ft item hmem hunav hall
  have hname : item.name ∉ (get_menu_items ft).map (·.name) := by
    intro hin
    obtain ⟨j, hj, hjn⟩ := List.mem_map.mp hin
    simp only [get_menu_items] at hj
    by_cases hav : (ft.menu_items.filter (·.available)).isEmpty
    · rw [if_pos hav] at hj
      have hne : ¬ ft.menu_items.isEmpty = true := by
        intro hemp
        rw [List.isEmpty_iff] at hemp
        rw [hemp] at hmem
        exact absurd hmem (by simp)
      rw [if_neg hne] at hj
      exact absurd hj (by simp)
    · rw [if_neg hav] at hj
      rw [List.mem_filter] at hj
      exact absurd hj.2 (by rw [hall j hj.1 hjn]; simp)
  have hnone : dictFind? (menuPriceMap ft) item.name = none := by
    rcases hfind : (menuPriceMap ft).find? (·.1 = item.name) with _ | pr
    · unfold dictFind?
      rw [hfind]
      rfl
    · exfalso
      have hpr1 : pr.1 = item.name := by simpa using List.find?_some hfind
      have hprm := List.mem_of_find?_eq_some hfind
      unfold menuPriceMap at hprm
      rcases mem_foldl_dictInsert (·.name) (·.price) (get_menu_items ft) [] pr
          hprm with h | h
      · exact absurd h (by simp)
      · rw [hpr1] at h
        exact hname h
  refine ⟨hnone, ?_⟩
  intro l hl
  unfold lineContribution
  rw [hl, hnone]

/-- Witness for C10: an unavailable Veggie Burger alongside an
available Coca-Cola is skipped in the price map and prices at zero. -/
theorem c10_witness :
    dictFind? (menuPriceMap ⟨[], [],
      [⟨"9", "Veggie Burger", "", 799/100, "Food", true, "burger.svg",
          ["gluten", "soy"], false⟩,
        ⟨"10", "Coca-Cola", "", 249/100, "Drinks", true, "drink.svg",
          [], true⟩]⟩) "Veggie Burger" = none :=
  (c10_unavailable_items_price_zero
    ⟨[], [],
      [⟨"9", "Veggie Burger", "", 799/100, "Food", true, "burger.svg",
          ["gluten", "soy"], false⟩,
        ⟨"10", "Coca-Cola", "", 249/100, "Drinks", true, "drink.svg",
          [], true⟩]⟩
    ⟨"9", "Veggie Burger", "", 799/100, "Food", true, "burger.svg",
      ["gluten", "soy"], false⟩
    (by simp) rfl (by decide)).1

/-! ## Claim C9: duplicate registration -/

/-- A well-formed email is non-empty and contains an `@`. -/
theorem emailFormatOk_parts {e : String} (h : emailFormatOk e = true) :
    strIn "@" e = true ∧ e ≠ "" := by
  have h1 : strIn "@" e = true := by
    unfold emailFormatOk at h
    simp only [Bool.and_eq_true] at h
    exact h.1
  refine ⟨h1, ?_⟩
  intro he
  rw [he] at h1
  exact absurd h1 (by decide)

/-- Inversion of a successful signup: the email was well-shaped, no
user with that email existed beforehand, and one exists afterwards. -/
theorem signup_success_inv {hash : String → String} {ft : FoodTruck}
    {f : SignupForm} (h : (signup hash ft f).2 = SignupResult.success) :
    emailFormatOk (normEmail f) = true ∧
    user_exists ft (normEmail f) = false ∧
    user_exists (signup hash ft f).1 (normEmail f) = true := by
  by_cases h1 : emailFormatOk (normEmail f) = true
  swap
  · rw [Bool.not_eq_true] at h1
    simp [signup, h1] at h
  obtain ⟨h2, h3⟩ := emailFormatOk_parts h1
  by_cases h4 : f.password = ""
  · simp [signup, h1, h2, h3, h4] at h
  by_cases h5 : f.password.length < 6
  · simp [signup, h1, h2, h3, h4, h5] at h
  by_cases h6 : pyStrip (sanitize_text f.first) = ""
  · simp [signup, h1, h2, h3, h4, h5, h6] at h
  by_cases h7 : pyStrip (sanitize_text f.last) = ""
  · simp [signup, h1, h2, h3, h4, h5, h6, h7] at h
  by_cases h8 : user_exists ft (normEmail f) = true
  · simp [signup, h1, h2, h3, h4, h5, h6, h7, h8] at h
  rw [Bool.not_eq_true] at h8
  by_cases h9 : (get_user_details (signupNewState hash ft f) (normEmail f)).isSome
    = true
  · refine ⟨h1, h8, ?_⟩
    have hstate : (signup hash ft f).1 = signupNewState hash ft f := by
      simp [signup, h1, h2, h3, h4, h5, h6, h7, h8, h9]
    unfold user_exists
    rw [hstate]
    exact h9
  · rw [Bool.not_eq_true] at h9
    simp [signup, h1, h2, h3, h4, h5, h6, h7, h8, h9] at h

/-- C9: after a successful registration, a second registration attempt
whose email normalises to the same stripped, lowercased string — i.e.
the same email compared case-insensitively — and which passes the
password and name shape checks fails with the duplicate-identity error
and leaves the stored records unchanged. -/
theorem c9_duplicate_registration :
    ∀ (hash : String → String) (ft : FoodTruck) (f1 f2 : SignupForm),
      (signup hash ft f1).2 = SignupResult.success →
      normEmail f2 = normEmail f1 →
      f2.password ≠ "" →
      ¬(f2.password.length < 6) →
      pyStrip (sanitize_text f2.first) ≠ "" →
      pyStrip (sanitize_text f2.last) ≠ "" →
      signup hash (signup hash ft f1).1 f2 =
        ((signup hash ft f1).1, SignupResult.duplicate) := by
  intro hash ft f1 f2 hs hemail hpw1 hpw2 hfirst hlast
  obtain ⟨hfmt, -, hex⟩ := signup_success_inv hs
  obtain ⟨hat, hne⟩ := emailFormatOk_parts hfmt
  generalize hgen : (signup hash ft f1).1 = ft1 at hex ⊢
  simp [signup, hemail, hfmt, hat, hne, hpw1, hpw2, hfirst, hlast, hex]

/-- Witness for C9: registering "a@x.com" and then " A@X.COM " (a case
and whitespace variant) — the second attempt fails with the duplicate
error and the state is unchanged. -/
theorem c9_witness :
    signup (fun p => p)
      (signup (fun p => p) ⟨[], [], []⟩
        ⟨"a@x.com", "secret123", "staff", "Alice", "Smith", "", "", "", ""⟩).1
      ⟨" A@X.COM ", "secret456", "customer", "Bob", "Jones", "", "", "", ""⟩ =
    ((signup (fun p => p) ⟨[], [], []⟩
        ⟨"a@x.com", "secret123", "staff", "Alice", "Smith", "", "", "", ""⟩).1,
      SignupResult.duplicate) :=
  c9_duplicate_registration (fun p => p) ⟨[], [], []⟩
    ⟨"a@x.com", "secret123", "staff", "Alice", "Smith", "", "", "", ""⟩
    ⟨" A@X.COM ", "secret456", "customer", "Bob", "Jones", "", "", "", ""⟩
    (by decide) (by decide) (by decide) (by decide) (by decide) (by decide)

end Item7
